import Mathlib

/-!
# Verification of the SolcastMonitor forecast core

Shallow embedding of the algorithmic core of `solcast_api.py`:

* the calendar/time model (Python `datetime`, proleptic Gregorian, embedded as
  seconds since the civil epoch 1970-01-01, an `Int`);
* the record-selection logic of `SolcastAPI._process_forecast_data`
  (date filter, nearest-minute sort, nearest-instant fallback, final
  chronological sort);
* the sun-position computation `SolcastAPI._calculate_sun_position`
  (real-valued model; a division whose denominator is exactly zero is
  modelled as `none`, mirroring Python's `ZeroDivisionError`);
* the mobile-panel irradiance model `SolcastAPI._calculate_gti_for_solar_car`;
* the per-sample record processing and its error behaviour.

Python's stable `list.sort(key=...)` is modelled by `List.insertionSort`
with the non-strict key comparison, which is stable in the same sense.
-/

namespace SolcastMonitor

/-! ## Calendar model

Python `datetime` values are naive proleptic-Gregorian timestamps.  We embed
one as the number of seconds since 1970-01-01 00:00:00 and recover the
calendar fields with the standard civil-calendar conversion (the same
algorithm family used by every civil calendar implementation).  All
divisions below are by positive constants, so Euclidean division `ediv`
coincides with floor division.
-/

/-- A naive local/UTC timestamp: seconds since 1970-01-01 00:00:00. -/
abbrev DT := Int

/-- Days since 1970-01-01 of the civil date `y-m-d`. -/
def daysFromCivil (y m d : Int) : Int :=
  let y' := if m ≤ 2 then y - 1 else y
  let era := y'.ediv 400
  let yoe := y' - era * 400
  let mp := if 2 < m then m - 3 else m + 9
  let doy := (153 * mp + 2).ediv 5 + (d - 1)
  let doe := yoe * 365 + yoe.ediv 4 - yoe.ediv 100 + doy
  era * 146097 + doe - 719468

/-- The civil date `(y, m, d)` of a day count since 1970-01-01. -/
def civilFromDays (z : Int) : Int × Int × Int :=
  let z' := z + 719468
  let era := z'.ediv 146097
  let doe := z' - era * 146097
  let yoe := (doe - doe.ediv 1460 + doe.ediv 36524 - doe.ediv 146096).ediv 365
  let y := yoe + era * 400
  let doy := doe - (365 * yoe + yoe.ediv 4 - yoe.ediv 100)
  let mp := (5 * doy + 2).ediv 153
  let d := doy - (153 * mp + 2).ediv 5 + 1
  let m := if mp < 10 then mp + 3 else mp - 9
  (if m ≤ 2 then y + 1 else y, m, d)

/-- Build a timestamp from calendar fields (Python `datetime(y, m, d, h, mi)`). -/
def mkDT (y m d h mi : Int) : DT :=
  daysFromCivil y m d * 86400 + h * 3600 + mi * 60

/-- `datetime.year`. -/
def dtYear (t : DT) : Int := (civilFromDays (t.ediv 86400)).1

/-- `datetime.month`. -/
def dtMonth (t : DT) : Int := (civilFromDays (t.ediv 86400)).2.1

/-- `datetime.day`. -/
def dtDay (t : DT) : Int := (civilFromDays (t.ediv 86400)).2.2

/-- `datetime.hour`. -/
def dtHour (t : DT) : Int := (t.emod 86400).ediv 3600

/-- `datetime.minute`. -/
def dtMinute (t : DT) : Int := ((t.emod 86400).ediv 60).emod 60

/-- `datetime.second`. -/
def dtSecond (t : DT) : Int := (t.emod 86400).emod 60

/-- `datetime.timetuple().tm_yday`: one-based ordinal day of the year. -/
def dayOfYear (t : DT) : Int :=
  t.ediv 86400 - daysFromCivil (dtYear t) 1 1 + 1

/-- `time + timedelta(hours=tz)` for a whole-hour timezone offset. -/
def localTime (t : DT) (tz : Int) : DT := t + tz * 3600

/-! ## The output record

`models.SolarForecast`.  Numeric fields are modelled over `ℝ`.  The Python
dataclass declares `gti: float`, but `_process_forecast_data` stores
`item.get("gti", 0.0)` there, which is `None` when the upstream field is
present but null; hence `gti : Option ℝ`.  The `period` field is never set
by the processing code and stays `none`.
-/

structure SolarForecast where
  time : DT
  ghi : ℝ
  forecast_radiation : ℝ
  zenith : ℝ
  azimuth : ℝ
  gti : Option ℝ
  gti_valid : Bool
  air_temp : Option ℝ
  cloud_opacity : ℝ
  wind_speed : ℝ
  wind_direction : ℝ
  period : Option String

/-! ## ForecastSelector

The tail of `SolcastAPI._process_forecast_data` (lines 254-279): given the
list `all_forecasts` built from the samples and the optional
`specific_date`, pick and order the records to return.  Python's stable
in-place `sort(key=k)` is modelled by `List.insertionSort` on the
non-strict comparison of keys, which is likewise stable.
-/

/-- Python `list.sort(key=key)`: a stable sort by a `ℤ`-valued key. -/
def sortByKey (key : SolarForecast → Int) (l : List SolarForecast) : List SolarForecast :=
  List.insertionSort (fun a b => key a ≤ key b) l

/-- Line 261-265: records whose calendar date equals the target's date. -/
def sameDateFilter (all : List SolarForecast) (td : DT) : List SolarForecast :=
  all.filter fun f =>
    dtYear f.time == dtYear td && dtMonth f.time == dtMonth td && dtDay f.time == dtDay td

/-- Line 269-270 sort key: absolute minute-of-day distance to the target. -/
def minuteKey (td : DT) (f : SolarForecast) : Int :=
  |dtHour f.time * 60 + dtMinute f.time - (dtHour td * 60 + dtMinute td)|

/-- Line 274 sort key: absolute elapsed seconds to the target instant. -/
def distKey (td : DT) (f : SolarForecast) : Int :=
  |f.time - td|

/-- Lines 254-279 of `_process_forecast_data`: the selection/ordering of the
built records.  Note that line 279 re-sorts the chosen records by timestamp
on every path. -/
def selectForecasts (all : List SolarForecast) (target : Option DT) : List SolarForecast :=
  let forecasts :=
    match target with
    | some td =>
      let dateFiltered := sameDateFilter all td
      if dateFiltered.isEmpty then
        (sortByKey (distKey td) all).take 24
      else
        sortByKey (minuteKey td) dateFiltered
    | none => all
  List.insertionSort (fun a b => a.time ≤ b.time) forecasts

/-! ## SunPositionCalculator

`SolcastAPI._calculate_sun_position` (lines 91-137), modelled over `ℝ`.
Python raises `ZeroDivisionError` when a float division's denominator is
exactly `0.0`; the model returns `none` exactly when a denominator of the
two azimuth divisions is exactly zero, and `some` otherwise.  The code has
no special case for `sin(zenith) = 0`.
-/

noncomputable section

/-- `math.radians`. -/
def radians (x : ℝ) : ℝ := x * (Real.pi / 180)

/-- `math.degrees`. -/
def degrees (x : ℝ) : ℝ := x * (180 / Real.pi)

/-- The clamp `max(min(x, 1.0), -1.0)` applied before `acos`/`asin`. -/
def clamp1 (x : ℝ) : ℝ := max (min x 1) (-1)

/-- The returned pair `{"zenith": ..., "azimuth": ...}`. -/
structure SunPos where
  zenith : ℝ
  azimuth : ℝ

/-- Line 101: `hour + minute/60 + second/3600`. -/
def fracHour (t : DT) : ℝ :=
  (dtHour t : ℝ) + (dtMinute t : ℝ) / 60 + (dtSecond t : ℝ) / 3600

/-- Line 104: solar declination `23.45 * sin(radians(360*(284+d)/365))`. -/
def declinationDeg (d : Int) : ℝ :=
  23.45 * Real.sin (radians (360 * (284 + (d : ℝ)) / 365))

/-- Lines 107-108: `solar_time = hour + 4*longitude/60`. -/
def solarTime (t : DT) (lon : ℝ) : ℝ := fracHour t + 4 * lon / 60

/-- Line 111: hour angle `15 * (solar_time - 12)`. -/
def hourAngle (t : DT) (lon : ℝ) : ℝ := 15 * (solarTime t lon - 12)

/-- Lines 118-119: the raw cosine of the zenith angle, before clamping. -/
def cosZenithRaw (t : DT) (lat lon : ℝ) : ℝ :=
  Real.sin (radians lat) * Real.sin (radians (declinationDeg (dayOfYear t))) +
    Real.cos (radians lat) * Real.cos (radians (declinationDeg (dayOfYear t))) *
      Real.cos (radians (hourAngle t lon))

/-- Line 120: zenith in degrees, `degrees(acos(clamped cos_zenith))`. -/
def zenithOf (t : DT) (lat lon : ℝ) : ℝ :=
  degrees (Real.arccos (clamp1 (cosZenithRaw t lat lon)))

open Classical in
/-- Lines 91-137, `_calculate_sun_position`.  `none` models the uncaught
`ZeroDivisionError` raised when `sin(radians(zenith))` (line 123) or
`cos(lat_rad) * sin(radians(zenith))` (lines 124-125) is exactly zero. -/
def sunPosition (t : DT) (lat lon : ℝ) : Option SunPos :=
  let zenith := zenithOf t lat lon
  if Real.sin (radians zenith) = 0 then none
  else
    let sinAzimuth := -Real.cos (radians (declinationDeg (dayOfYear t))) *
      Real.sin (radians (hourAngle t lon)) / Real.sin (radians zenith)
    if Real.cos (radians lat) * Real.sin (radians zenith) = 0 then none
    else
      let cosAzimuth := (Real.sin (radians (declinationDeg (dayOfYear t))) -
        Real.sin (radians lat) * Real.cos (radians zenith)) /
        (Real.cos (radians lat) * Real.sin (radians zenith))
      let asinDeg := degrees (Real.arcsin (clamp1 sinAzimuth))
      some ⟨zenith,
        if 0 ≤ sinAzimuth ∧ 0 ≤ cosAzimuth then asinDeg
        else if 0 ≤ sinAzimuth ∧ cosAzimuth < 0 then 180 - asinDeg
        else if sinAzimuth < 0 ∧ cosAzimuth < 0 then 180 - asinDeg
        else 360 + asinDeg⟩

/-! ## IrradianceModel

`SolcastAPI._calculate_gti_for_solar_car` (lines 139-171).
-/

/-- Lines 139-171: the mobile-panel (solar car) GTI computation. -/
def calculateGtiForSolarCar (ghi dni zenith azimuth tilt carDirection : ℝ) : ℝ :=
  let zenithRad := radians zenith
  let azimuthRad := radians azimuth
  let tiltRad := radians tilt
  let carDirectionRad := radians carDirection
  let cosIncidence := Real.cos tiltRad * Real.cos zenithRad +
    Real.sin tiltRad * Real.sin zenithRad * Real.cos (azimuthRad - carDirectionRad)
  let beam := dni * max 0 cosIncidence
  let diffuseRaw := (ghi - dni * Real.cos zenithRad) * (1 + Real.cos tiltRad) / 2
  let diffuse := if diffuseRaw < 0 then 0 else diffuseRaw
  let albedo : ℝ := 0.2
  let reflected := ghi * albedo * (1 - Real.cos tiltRad) / 2
  let carCorrection : ℝ := 0.95
  (beam + diffuse + reflected) * carCorrection

/-! ## ForecastRecordProcessor

The per-sample loop of `_process_forecast_data` (lines 205-252).  A raw
sample is a JSON object; optional numeric fields are `Option ℝ`.  The
`period_end` field is `Option (Option DT)`: the outer `none` models an
absent or empty (falsy) timestamp string, `some none` a present but
unparsable string (on which `dateutil.parser.parse` raises, uncaught), and
`some (some t)` a string parsing to the UTC instant `t`.  The `gti` field
is `Option (Option ℝ)`: absent key, key present with null, or a number —
the code distinguishes all three (`item.get("gti", 0.0)` versus
`"gti" in item and item["gti"] is not None`).  The upstream `zenith` and
`azimuth` fields are carried so that theorems can speak about them.
-/

structure RawItem where
  period_end : Option (Option DT)
  ghi : Option ℝ
  dni : Option ℝ
  cloud_opacity : Option ℝ
  wind_speed_10m : Option ℝ
  wind_direction_10m : Option ℝ
  air_temp : Option ℝ
  zenith : Option ℝ
  azimuth : Option ℝ
  gti : Option (Option ℝ)

/-- Outcome of processing one sample: skipped by `continue` (line 209),
aborted by an uncaught exception, or one appended `SolarForecast`. -/
inductive ItemResult where
  | skip : ItemResult
  | fatal : ItemResult
  | ok : SolarForecast → ItemResult

/-- Lines 205-252: one iteration of the per-sample loop.  The solar-car
branch's guard `zenith is not None and azimuth is not None` (line 232) is
always true there, since both are floats just computed on lines 219-221. -/
def processItem (item : RawItem) (lat lon : ℝ) (tz : Int)
    (isSolarCar : Bool) (scTilt scDir : ℝ) : ItemResult :=
  match item.period_end with
  | none => .skip
  | some none => .fatal
  | some (some t) =>
    let localT := localTime t tz
    match sunPosition localT lat lon with
    | none => .fatal
    | some sp =>
      let gti : Option ℝ :=
        match item.gti with
        | none => some 0
        | some v => v
      let gtiValid : Bool :=
        match item.gti with
        | some (some _) => true
        | _ => false
      let gti := if isSolarCar then
          some (calculateGtiForSolarCar (item.ghi.getD 0) (item.dni.getD 0)
            sp.zenith sp.azimuth scTilt scDir)
        else gti
      let gtiValid := if isSolarCar then true else gtiValid
      .ok { time := localT
            ghi := item.ghi.getD 0
            forecast_radiation := item.dni.getD 0
            zenith := sp.zenith
            azimuth := sp.azimuth
            gti := gti
            gti_valid := gtiValid
            air_temp := item.air_temp
            cloud_opacity := item.cloud_opacity.getD 0
            wind_speed := item.wind_speed_10m.getD 0
            wind_direction := item.wind_direction_10m.getD 0
            period := none }

/-- The whole per-sample loop over the batch: `none` models an uncaught
exception escaping `_process_forecast_data`; otherwise the list
`all_forecasts` in order. -/
def processAll (items : List RawItem) (lat lon : ℝ) (tz : Int)
    (isSolarCar : Bool) (scTilt scDir : ℝ) : Option (List SolarForecast) :=
  match items with
  | [] => some []
  | item :: rest =>
    match processItem item lat lon tz isSolarCar scTilt scDir with
    | .skip => processAll rest lat lon tz isSolarCar scTilt scDir
    | .fatal => none
    | .ok f => (processAll rest lat lon tz isSolarCar scTilt scDir).map (f :: ·)

/-- Lines 173-279, `_process_forecast_data` end to end: build the records,
then select.  An empty batch returns `[]` early (line 192-194). -/
def processForecastData (items : List RawItem) (lat lon : ℝ) (tz : Int)
    (specificDate : Option DT) (isSolarCar : Bool) (scTilt scDir : ℝ) :
    Option (List SolarForecast) :=
  if items.isEmpty then some []
  else (processAll items lat lon tz isSolarCar scTilt scDir).map
    (fun all => selectForecasts all specificDate)

end

/-! ## Concrete selector inputs -/

/-- A record carrying only a timestamp (the other fields are irrelevant to
selection, which reads only `time`). -/
def mkSample (t : DT) : SolarForecast :=
  ⟨t, 0, 0, 0, 0, some 0, false, none, 0, 0, 0, none⟩

/-- The spec's same-day example: samples at 08:00, 08:30, 09:00 on 2024-06-01. -/
def ex1 : List SolarForecast :=
  [mkSample (mkDT 2024 6 1 8 0), mkSample (mkDT 2024 6 1 8 30), mkSample (mkDT 2024 6 1 9 0)]

/-- The spec's same-day example target: 2024-06-01 08:40. -/
def tgt1 : DT := mkDT 2024 6 1 8 40

/-- Fallback example: records on 2024-05-31 20:00 and 2024-06-02 00:00. -/
def ex5 : List SolarForecast :=
  [mkSample (mkDT 2024 5 31 20 0), mkSample (mkDT 2024 6 2 0 0)]

/-- Fallback example target: 2024-06-01 12:00, a date shared by no record. -/
def tgt5 : DT := mkDT 2024 6 1 12 0

/-- Twenty-five records on 2024-06-01, all sharing the target's date. -/
def ex10 : List SolarForecast :=
  (List.range 25).map fun i => mkSample (mkDT 2024 6 1 10 (2 * (i : Int)))

/-- Target for the 25-record example: 2024-06-01 00:00. -/
def tgt10 : DT := mkDT 2024 6 1 0 0

/-! ## Concrete processing inputs

`itemA` is processed with latitude 45, longitude 0, timezone offset +9:
its UTC timestamp 2024-03-21 03:00 becomes local 2024-03-21 12:00, local
solar noon of day-of-year 81 where the declination of the simplified model
is exactly zero, so the sun position evaluates in closed form to
zenith 45, azimuth 180.  Its upstream `zenith`/`azimuth` fields carry the
out-of-range value 1000 to expose whether they are ever used. -/

/-- A fully-populated raw sample with upstream zenith/azimuth 1000 and a
non-null upstream gti of 500. -/
def itemA : RawItem :=
  { period_end := some (some (mkDT 2024 3 21 3 0))
    ghi := some 100
    dni := some 50
    cloud_opacity := some 1
    wind_speed_10m := some 2
    wind_direction_10m := some 90
    air_temp := some 20
    zenith := some 1000
    azimuth := some 1000
    gti := some (some 500) }

/-- The forecast built from `itemA` (latitude 45, longitude 0, offset +9,
solar-car mode off). -/
def fcA : SolarForecast :=
  { time := mkDT 2024 3 21 12 0
    ghi := 100
    forecast_radiation := 50
    zenith := 45
    azimuth := 180
    gti := some 500
    gti_valid := true
    air_temp := some 20
    cloud_opacity := 1
    wind_speed := 2
    wind_direction := 90
    period := none }

/-- `itemA` with a present but unparsable timestamp string. -/
def itemBad : RawItem := { itemA with period_end := some none }

/-- `itemA` with an absent (or empty, hence falsy) timestamp string. -/
def itemAbsent : RawItem := { itemA with period_end := none }

/-! ## Selector lemmas -/

/-- The chronological comparison used by the final sort on line 279. -/
def timeLE (a b : SolarForecast) : Prop := a.time ≤ b.time

lemma insertionSort_time_sorted (l : List SolarForecast) :
    (List.insertionSort (fun a b => a.time ≤ b.time) l).Pairwise
      (fun a b => a.time ≤ b.time) := by
  haveI : IsTotal SolarForecast (fun a b => a.time ≤ b.time) :=
    ⟨fun a b => le_total a.time b.time⟩
  haveI : IsTrans SolarForecast (fun a b => a.time ≤ b.time) :=
    ⟨fun _ _ _ h1 h2 => le_trans h1 h2⟩
  exact List.sorted_insertionSort _ l

lemma selectForecasts_sorted (all : List SolarForecast) (target : Option DT) :
    (selectForecasts all target).Pairwise (fun a b => a.time ≤ b.time) := by
  unfold selectForecasts
  exact insertionSort_time_sorted _

lemma selectForecasts_perm_sameDate (all : List SolarForecast) (td : DT)
    (h : (sameDateFilter all td).isEmpty = false) :
    (selectForecasts all (some td)).Perm (sameDateFilter all td) := by
  unfold selectForecasts
  simp only [h, Bool.false_eq_true, if_false]
  exact (List.perm_insertionSort _ _).trans (List.perm_insertionSort _ _)

lemma selectForecasts_perm_fallback (all : List SolarForecast) (td : DT)
    (h : (sameDateFilter all td).isEmpty = true) :
    (selectForecasts all (some td)).Perm ((sortByKey (distKey td) all).take 24) := by
  unfold selectForecasts
  simp only [h, if_true]
  exact List.perm_insertionSort _ _

/-! ## Claim theorems: record selection -/

/-- Claim C1, corrected.  When at least one record shares the target's
calendar date, the selection returns exactly that same-day subset, but the
final sort on line 279 orders it by ascending timestamp: the claimed
nearest-minute-of-day ordering is overwritten by the chronological re-sort. -/
theorem C1_sameDay_subset_chronological (all : List SolarForecast) (td : DT)
    (h : (sameDateFilter all td).isEmpty = false) :
    (selectForecasts all (some td)).Perm (sameDateFilter all td) ∧
    (selectForecasts all (some td)).Pairwise (fun a b => a.time ≤ b.time) :=
  ⟨selectForecasts_perm_sameDate all td h, selectForecasts_sorted all (some td)⟩

/-- Claim C1, counterexample.  On the spec's own example (records at 08:00,
08:30, 09:00 of 2024-06-01 and target 2024-06-01 08:40) the result is NOT
the claimed nearest-first order [08:30, 09:00, 08:00]; it is chronological. -/
theorem C1_counterexample :
    (selectForecasts ex1 (some tgt1)).map (fun f => f.time) ≠
      [mkDT 2024 6 1 8 30, mkDT 2024 6 1 9 0, mkDT 2024 6 1 8 0] := by
  decide

/-- Claim C1, witness: the amended statement instantiated on the spec's
example; the concrete output is [08:00, 08:30, 09:00]. -/
theorem C1_witness :
    (sameDateFilter ex1 tgt1).isEmpty = false ∧
    ((selectForecasts ex1 (some tgt1)).Perm (sameDateFilter ex1 tgt1) ∧
      (selectForecasts ex1 (some tgt1)).Pairwise (fun a b => a.time ≤ b.time)) ∧
    (selectForecasts ex1 (some tgt1)).map (fun f => f.time) =
      [mkDT 2024 6 1 8 0, mkDT 2024 6 1 8 30, mkDT 2024 6 1 9 0] :=
  ⟨by decide, C1_sameDay_subset_chronological ex1 tgt1 (by decide), by decide⟩

/-- Claim C4, confirmed.  On every branch of the selection (no target,
same-day subset, or nearest-instant fallback) the returned sequence has
monotonically non-decreasing timestamps, because line 279 sorts the chosen
records chronologically before returning. -/
theorem C4_output_chronological (all : List SolarForecast) (target : Option DT) :
    (selectForecasts all target).Pairwise (fun a b => a.time ≤ b.time) :=
  selectForecasts_sorted all target

/-- Claim C5, corrected.  When no record shares the target's date, the
selection keeps the 24 records nearest in absolute elapsed time (the prefix
of the stable nearness sort), but returns them ordered chronologically by
the final sort on line 279, not nearness-ranked. -/
theorem C5_fallback_nearest24_chronological (all : List SolarForecast) (td : DT)
    (h : (sameDateFilter all td).isEmpty = true) :
    (selectForecasts all (some td)).Perm ((sortByKey (distKey td) all).take 24) ∧
    (selectForecasts all (some td)).Pairwise (fun a b => a.time ≤ b.time) :=
  ⟨selectForecasts_perm_fallback all td h, selectForecasts_sorted all (some td)⟩

/-- Claim C5, counterexample.  Records at 2024-05-31 20:00 (16 h from the
target) and 2024-06-02 00:00 (12 h from the target), target 2024-06-01
12:00: the claimed nearness-ranked order would put 2024-06-02 first, but
the code returns the chronological order. -/
theorem C5_counterexample :
    (selectForecasts ex5 (some tgt5)).map (fun f => f.time) ≠
      [mkDT 2024 6 2 0 0, mkDT 2024 5 31 20 0] := by
  decide

/-- Claim C5, witness: the amended statement instantiated on the two-record
fallback example; the concrete output is chronological. -/
theorem C5_witness :
    (sameDateFilter ex5 tgt5).isEmpty = true ∧
    ((selectForecasts ex5 (some tgt5)).Perm ((sortByKey (distKey tgt5) ex5).take 24) ∧
      (selectForecasts ex5 (some tgt5)).Pairwise (fun a b => a.time ≤ b.time)) ∧
    (selectForecasts ex5 (some tgt5)).map (fun f => f.time) =
      [mkDT 2024 5 31 20 0, mkDT 2024 6 2 0 0] :=
  ⟨by decide, C5_fallback_nearest24_chronological ex5 tgt5 (by decide), by decide⟩

/-- Claim C10, confirmed.  When the same-day subset is non-empty it is
returned in full — the selection result is a permutation of it, with equal
length — so the 24-entry truncation of the fallback branch never applies. -/
theorem C10_sameDay_no_truncation (all : List SolarForecast) (td : DT)
    (h : (sameDateFilter all td).isEmpty = false) :
    (selectForecasts all (some td)).Perm (sameDateFilter all td) ∧
    (selectForecasts all (some td)).length = (sameDateFilter all td).length :=
  ⟨selectForecasts_perm_sameDate all td h,
    (selectForecasts_perm_sameDate all td h).length_eq⟩

/-- Claim C10, witness: 25 records sharing the target's date are all
returned — the output has length 25, beyond the fallback cap of 24. -/
theorem C10_witness :
    (sameDateFilter ex10 tgt10).isEmpty = false ∧
    ((selectForecasts ex10 (some tgt10)).Perm (sameDateFilter ex10 tgt10) ∧
      (selectForecasts ex10 (some tgt10)).length = (sameDateFilter ex10 tgt10).length) ∧
    (selectForecasts ex10 (some tgt10)).length = 25 :=
  ⟨by decide, C10_sameDay_no_truncation ex10 tgt10 (by decide), by decide⟩

/-! ## Sun-position lemmas -/

lemma radians_zero : radians 0 = 0 := by simp [radians]

lemma degrees_zero : degrees 0 = 0 := by simp [degrees]

lemma degrees_pi : degrees Real.pi = 180 := by
  unfold degrees
  field_simp

lemma degrees_le_degrees {x y : ℝ} (h : x ≤ y) : degrees x ≤ degrees y := by
  unfold degrees
  have hp : (0:ℝ) < 180 / Real.pi := by positivity
  exact mul_le_mul_of_nonneg_right h hp.le

lemma degrees_nonneg {x : ℝ} (h : 0 ≤ x) : 0 ≤ degrees x := by
  simpa [degrees_zero] using degrees_le_degrees h

lemma degrees_pi_div_two : degrees (Real.pi / 2) = 90 := by
  unfold degrees
  field_simp
  ring

lemma degrees_neg (x : ℝ) : degrees (-x) = -(degrees x) := by
  unfold degrees; ring

lemma degrees_lt_zero {x : ℝ} (h : x < 0) : degrees x < 0 := by
  unfold degrees
  have hp : (0:ℝ) < 180 / Real.pi := by positivity
  exact mul_neg_of_neg_of_pos h hp

lemma zenithOf_nonneg (t : DT) (lat lon : ℝ) : 0 ≤ zenithOf t lat lon :=
  degrees_nonneg (Real.arccos_nonneg _)

lemma zenithOf_le_180 (t : DT) (lat lon : ℝ) : zenithOf t lat lon ≤ 180 := by
  have h := degrees_le_degrees (Real.arccos_le_pi (clamp1 (cosZenithRaw t lat lon)))
  rw [degrees_pi] at h
  exact h

lemma asinDeg_le_90 (x : ℝ) : degrees (Real.arcsin x) ≤ 90 := by
  have h := degrees_le_degrees (Real.arcsin_le_pi_div_two x)
  rwa [degrees_pi_div_two] at h

lemma neg_90_le_asinDeg (x : ℝ) : -90 ≤ degrees (Real.arcsin x) := by
  have h := degrees_le_degrees (Real.neg_pi_div_two_le_arcsin x)
  rwa [degrees_neg, degrees_pi_div_two] at h

lemma clamp1_nonneg {x : ℝ} (h : 0 ≤ x) : 0 ≤ clamp1 x := by
  unfold clamp1
  exact le_trans (le_min h zero_le_one) (le_max_left _ _)

lemma clamp1_neg {x : ℝ} (h : x < 0) : clamp1 x < 0 := by
  unfold clamp1
  rw [min_eq_left (h.le.trans zero_le_one)]
  exact max_lt h (by norm_num)

/-- The quadrant-resolution expression of lines 127-135 always lands in
`[0, 360)`, whatever the values of `sin_azimuth` and `cos_azimuth`. -/
lemma azimuth_branch_bounds (s c : ℝ) :
    0 ≤ (if 0 ≤ s ∧ 0 ≤ c then degrees (Real.arcsin (clamp1 s))
         else if 0 ≤ s ∧ c < 0 then 180 - degrees (Real.arcsin (clamp1 s))
         else if s < 0 ∧ c < 0 then 180 - degrees (Real.arcsin (clamp1 s))
         else 360 + degrees (Real.arcsin (clamp1 s))) ∧
    (if 0 ≤ s ∧ 0 ≤ c then degrees (Real.arcsin (clamp1 s))
         else if 0 ≤ s ∧ c < 0 then 180 - degrees (Real.arcsin (clamp1 s))
         else if s < 0 ∧ c < 0 then 180 - degrees (Real.arcsin (clamp1 s))
         else 360 + degrees (Real.arcsin (clamp1 s))) < 360 := by
  have hle := asinDeg_le_90 (clamp1 s)
  have hge := neg_90_le_asinDeg (clamp1 s)
  split_ifs with b1 b2 b3
  · exact ⟨degrees_nonneg (Real.arcsin_nonneg.mpr (clamp1_nonneg b1.1)), by linarith⟩
  · exact ⟨by linarith, by linarith⟩
  · exact ⟨by linarith, by linarith⟩
  · have hsneg : s < 0 := by
      rcases lt_or_le s 0 with h | h
      · exact h
      · exfalso
        rcases lt_or_le c 0 with h' | h'
        · exact b2 ⟨h, h'⟩
        · exact b1 ⟨h, h'⟩
    have hneg := degrees_lt_zero (Real.arcsin_lt_zero.mpr (clamp1_neg hsneg))
    exact ⟨by linarith, by linarith⟩

/-- Whenever `_calculate_sun_position` returns (does not raise), the pair
satisfies the documented ranges. -/
lemma sunPosition_ranges {t : DT} {lat lon : ℝ} {p : SunPos}
    (h : sunPosition t lat lon = some p) :
    0 ≤ p.zenith ∧ p.zenith ≤ 180 ∧ 0 ≤ p.azimuth ∧ p.azimuth < 360 := by
  simp only [sunPosition] at h
  by_cases h1 : Real.sin (radians (zenithOf t lat lon)) = 0
  · rw [if_pos h1] at h
    exact absurd h (by simp)
  rw [if_neg h1] at h
  by_cases h2 : Real.cos (radians lat) * Real.sin (radians (zenithOf t lat lon)) = 0
  · rw [if_pos h2] at h
    exact absurd h (by simp)
  rw [if_neg h2, Option.some.injEq] at h
  subst h
  exact ⟨zenithOf_nonneg t lat lon, zenithOf_le_180 t lat lon,
    (azimuth_branch_bounds _ _).1, (azimuth_branch_bounds _ _).2⟩

/-- On day-of-year 81 (so that `284 + d = 365`) the simplified declination
is exactly zero: `sin(radians 360) = sin(2π) = 0`. -/
lemma declinationDeg_81 : declinationDeg 81 = 0 := by
  unfold declinationDeg radians
  have h : (360 : ℝ) * (284 + ((81 : ℤ) : ℝ)) / 365 * (Real.pi / 180) = 2 * Real.pi := by
    push_cast
    ring
  rw [h, Real.sin_two_pi, mul_zero]

/-- At local clock noon on the Greenwich meridian the hour angle is zero. -/
lemma hourAngle_noon {t : DT} (hh : dtHour t = 12) (hm : dtMinute t = 0)
    (hs : dtSecond t = 0) : hourAngle t 0 = 0 := by
  unfold hourAngle solarTime fracHour
  rw [hh, hm, hs]
  push_cast
  ring

lemma cosZenithRaw_noon_81 {t : DT} (hd : dayOfYear t = 81) (hh : dtHour t = 12)
    (hm : dtMinute t = 0) (hs : dtSecond t = 0) (lat : ℝ) :
    cosZenithRaw t lat 0 = Real.cos (radians lat) := by
  unfold cosZenithRaw
  rw [hd, declinationDeg_81, hourAngle_noon hh hm hs, radians_zero]
  simp

lemma clamp1_one : clamp1 1 = 1 := by
  unfold clamp1
  norm_num

/-- The division-by-zero input: at noon of day 81 at latitude 0 and
longitude 0 the clamped zenith cosine is exactly 1, the zenith exactly 0,
and `sin(radians(zenith))` exactly 0 — line 123 raises `ZeroDivisionError`. -/
lemma sunPosition_overhead_none {t : DT} (hd : dayOfYear t = 81) (hh : dtHour t = 12)
    (hm : dtMinute t = 0) (hs : dtSecond t = 0) :
    sunPosition t 0 0 = none := by
  have hz : zenithOf t 0 0 = 0 := by
    unfold zenithOf
    rw [cosZenithRaw_noon_81 hd hh hm hs 0, radians_zero, Real.cos_zero, clamp1_one,
      Real.arccos_one, degrees_zero]
  simp only [sunPosition]
  rw [hz, radians_zero, Real.sin_zero, if_pos rfl]

lemma radians_45 : radians 45 = Real.pi / 4 := by
  unfold radians
  ring

lemma sqrt2_div_two_sq : Real.sqrt 2 / 2 * (Real.sqrt 2 / 2) = 1 / 2 := by
  rw [div_mul_div_comm, Real.mul_self_sqrt (by norm_num)]
  norm_num

lemma clamp1_cos (x : ℝ) : clamp1 (Real.cos x) = Real.cos x := by
  unfold clamp1
  rw [min_eq_left (Real.cos_le_one x), max_eq_left (Real.neg_one_le_cos x)]

lemma clamp1_zero : clamp1 0 = 0 := by
  unfold clamp1
  norm_num

lemma zenithOf_45 {t : DT} (hd : dayOfYear t = 81) (hh : dtHour t = 12)
    (hm : dtMinute t = 0) (hs : dtSecond t = 0) :
    zenithOf t 45 0 = 45 := by
  unfold zenithOf
  rw [cosZenithRaw_noon_81 hd hh hm hs 45, clamp1_cos, radians_45,
    Real.arccos_cos (by positivity) (by linarith [Real.pi_pos])]
  unfold degrees
  field_simp
  ring

/-- A closed-form evaluation of the sun position: noon of day 81 at
latitude 45, longitude 0 gives zenith 45 and azimuth 180 (due south). -/
lemma sunPosition_45 {t : DT} (hd : dayOfYear t = 81) (hh : dtHour t = 12)
    (hm : dtMinute t = 0) (hs : dtSecond t = 0) :
    sunPosition t 45 0 = some ⟨45, 180⟩ := by
  have hz := zenithOf_45 hd hh hm hs
  have hsin : Real.sin (radians 45) = Real.sqrt 2 / 2 := by
    rw [radians_45, Real.sin_pi_div_four]
  have hcos : Real.cos (radians 45) = Real.sqrt 2 / 2 := by
    rw [radians_45, Real.cos_pi_div_four]
  have hne : Real.sin (radians 45) ≠ 0 := by
    rw [hsin]; positivity
  have hprod : Real.cos (radians 45) * Real.sin (radians 45) = 1 / 2 := by
    rw [hsin, hcos, sqrt2_div_two_sq]
  simp only [sunPosition]
  rw [hz, hd, declinationDeg_81, hourAngle_noon hh hm hs, radians_zero,
    Real.sin_zero, Real.cos_zero, if_neg hne, hprod]
  rw [if_neg (by norm_num : ¬(1/2 : ℝ) = 0)]
  have hS : -(1 : ℝ) * 0 / Real.sin (radians 45) = 0 := by
    rw [mul_zero, zero_div]
  rw [hS]
  have hC : ((0 : ℝ) - Real.sin (radians 45) * Real.cos (radians 45)) / (1 / 2) = -1 := by
    rw [hsin, hcos, sqrt2_div_two_sq]
    norm_num
  rw [hC]
  rw [if_neg (by norm_num), if_pos (by norm_num : (0:ℝ) ≤ 0 ∧ (-1:ℝ) < 0)]
  rw [clamp1_zero, Real.arcsin_zero, degrees_zero, sub_zero]

/-! ## Claim theorems: sun position -/

/-- Claim C2, refuted by the code (code bug).  With latitude 0, longitude 0
and local timestamp 2024-03-21 12:00 (equator, local solar noon of
day-of-year 81, where the simplified declination is exactly zero) the
zenith is exactly 0 and `sin(radians(zenith))` is exactly 0, so line 123
divides by zero: the computation raises instead of returning the sentinel
azimuth the claim promises.  There is no special case in the code. -/
theorem C2_raises_at_zenith_zero : sunPosition (mkDT 2024 3 21 12 0) 0 0 = none :=
  @sunPosition_overhead_none (mkDT 2024 3 21 12 0) (by decide) (by decide) (by decide)
    (by decide)

/-- Claim C7, corrected.  Whenever the computation returns a pair at all,
zenith lies in `[0, 180]` and azimuth in `[0, 360)`; but for some in-range
inputs (sun exactly overhead) it raises and yields nothing, so the ranges
hold only conditionally on a value being returned. -/
theorem C7_ranges_when_value_returned (t : DT) (lat lon : ℝ)
    (_h1 : -90 ≤ lat) (_h2 : lat ≤ 90) (_h3 : -180 ≤ lon) (_h4 : lon ≤ 180)
    (p : SunPos) (hp : sunPosition t lat lon = some p) :
    0 ≤ p.zenith ∧ p.zenith ≤ 180 ∧ 0 ≤ p.azimuth ∧ p.azimuth < 360 :=
  sunPosition_ranges hp

/-- Claim C7, counterexample.  At latitude 0, longitude 0 and local
2023-03-22 12:00 (day-of-year 81 of a non-leap year) the computation
yields no zenith/azimuth pair at all — it raises on the zero denominator —
refuting the unconditional claim. -/
theorem C7_counterexample :
    ¬ ∃ p : SunPos, sunPosition (mkDT 2023 3 22 12 0) 0 0 = some p := by
  have h := @sunPosition_overhead_none (mkDT 2023 3 22 12 0) (by decide) (by decide)
    (by decide) (by decide)
  rintro ⟨p, hp⟩
  rw [h] at hp
  exact Option.noConfusion hp

/-- Claim C7, witness: at latitude 45, longitude 0, local 2024-03-21 12:00
the computation returns zenith 45 and azimuth 180, inside the ranges. -/
theorem C7_witness :
    ((-90 : ℝ) ≤ 45 ∧ (45 : ℝ) ≤ 90 ∧ (-180 : ℝ) ≤ 0 ∧ (0 : ℝ) ≤ 180) ∧
    (0 ≤ (SunPos.mk 45 180).zenith ∧ (SunPos.mk 45 180).zenith ≤ 180 ∧
      0 ≤ (SunPos.mk 45 180).azimuth ∧ (SunPos.mk 45 180).azimuth < 360) :=
  ⟨⟨by norm_num, by norm_num, by norm_num, by norm_num⟩,
    C7_ranges_when_value_returned (mkDT 2024 3 21 12 0) 45 0 (by norm_num) (by norm_num)
      (by norm_num) (by norm_num) ⟨45, 180⟩
      (@sunPosition_45 (mkDT 2024 3 21 12 0) (by decide) (by decide) (by decide) (by decide))⟩

/-! ## Claim theorems: irradiance model -/

/-- Claim C6, confirmed.  The mobile-mode irradiance computation equals
exactly `(beam + diffuse + reflected) * 0.95` with
`beam = dni * max 0 (cos tilt * cos zenith + sin tilt * sin zenith *
cos (azimuth - car_direction))`,
`diffuse = max 0 ((ghi - dni * cos zenith) * (1 + cos tilt) / 2)` and
`reflected = ghi * 0.2 * (1 - cos tilt) / 2` (all angles converted from
degrees to radians, as in the code). -/
theorem C6_gti_formula (ghi dni zenith azimuth tilt carDirection : ℝ) :
    calculateGtiForSolarCar ghi dni zenith azimuth tilt carDirection =
      (dni * max 0 (Real.cos (radians tilt) * Real.cos (radians zenith) +
          Real.sin (radians tilt) * Real.sin (radians zenith) *
            Real.cos (radians azimuth - radians carDirection)) +
        max 0 ((ghi - dni * Real.cos (radians zenith)) * (1 + Real.cos (radians tilt)) / 2) +
        ghi * 0.2 * (1 - Real.cos (radians tilt)) / 2) * 0.95 := by
  simp only [calculateGtiForSolarCar]
  rcases le_or_lt 0 ((ghi - dni * Real.cos (radians zenith)) * (1 + Real.cos (radians tilt)) / 2)
    with h | h
  · rw [if_neg (not_lt.mpr h), max_eq_right h]
  · rw [if_pos h, max_eq_left h.le]

/-! ## Record-processing lemmas -/

/-- Concrete evaluation of the per-sample processing on `itemA`. -/
lemma processItem_itemA : processItem itemA 45 0 9 false 10 180 = .ok fcA := by
  have hloc : localTime (mkDT 2024 3 21 3 0) 9 = mkDT 2024 3 21 12 0 := by decide
  simp only [processItem, itemA]
  rw [hloc, @sunPosition_45 (mkDT 2024 3 21 12 0) (by decide) (by decide) (by decide)
    (by decide)]
  rfl

/-! ## Claim theorems: record processing -/

/-- Claim C3, corrected.  The per-sample processing never reads the
upstream `zenith`/`azimuth` fields: replacing them by anything leaves the
output unchanged, and the zenith/azimuth of every produced record are
exactly the locally computed sun position at the local timestamp. -/
theorem C3_upstream_sun_ignored (item : RawItem) (z a : Option ℝ) (lat lon : ℝ)
    (tz : Int) (sc : Bool) (scTilt scDir : ℝ) (t : DT) (f : SolarForecast)
    (hpe : item.period_end = some (some t))
    (hok : processItem item lat lon tz sc scTilt scDir = .ok f) :
    processItem { item with zenith := z, azimuth := a } lat lon tz sc scTilt scDir = .ok f ∧
    sunPosition (localTime t tz) lat lon = some ⟨f.zenith, f.azimuth⟩ := by
  refine ⟨hok, ?_⟩
  simp only [processItem, hpe] at hok
  cases hsp : sunPosition (localTime t tz) lat lon with
  | none =>
    rw [hsp] at hok
    exact absurd hok (by simp)
  | some sp =>
    rw [hsp] at hok
    simp only [ItemResult.ok.injEq] at hok
    subst hok
    simp

/-- Claim C3, counterexample.  `itemA` carries upstream zenith and azimuth
1000, yet the produced record has zenith 45 and azimuth 180 — the
locally computed values, not the upstream ones. -/
theorem C3_counterexample :
    processItem itemA 45 0 9 false 10 180 = .ok fcA ∧
    itemA.zenith = some 1000 ∧ itemA.azimuth = some 1000 ∧
    fcA.zenith ≠ 1000 ∧ fcA.azimuth ≠ 1000 :=
  ⟨processItem_itemA, rfl, rfl, by norm_num [fcA], by norm_num [fcA]⟩

/-- Claim C3, witness: the amended statement instantiated on `itemA` with
its upstream sun fields overwritten by 0. -/
theorem C3_witness :
    processItem { itemA with zenith := some 0, azimuth := some 0 } 45 0 9 false 10 180 =
      .ok fcA ∧
    sunPosition (localTime (mkDT 2024 3 21 3 0) 9) 45 0 = some ⟨fcA.zenith, fcA.azimuth⟩ :=
  C3_upstream_sun_ignored itemA (some 0) (some 0) 45 0 9 false 10 180
    (mkDT 2024 3 21 3 0) fcA rfl processItem_itemA

/-- Claim C8, corrected.  A sample whose timestamp string is absent (or
empty, hence falsy) is skipped and the rest of the batch is processed; but
a present, unparsable timestamp makes `dateutil.parser.parse` raise, and
no handler catches it (`get_forecast` catches only `RequestException`), so
it aborts the whole batch. -/
theorem C8_absent_skipped_unparsable_fatal (item : RawItem) (rest : List RawItem)
    (lat lon : ℝ) (tz : Int) (sc : Bool) (scTilt scDir : ℝ) :
    (item.period_end = none →
      processAll (item :: rest) lat lon tz sc scTilt scDir =
        processAll rest lat lon tz sc scTilt scDir) ∧
    (item.period_end = some none →
      processAll (item :: rest) lat lon tz sc scTilt scDir = none) := by
  constructor
  · intro h
    simp only [processAll, processItem, h]
  · intro h
    simp only [processAll, processItem, h]

/-- Claim C8, counterexample.  A batch with one good sample and one sample
with an unparsable timestamp does not succeed with the good sample's
output: the whole batch aborts (the uncaught parse exception). -/
theorem C8_counterexample :
    processForecastData [itemA, itemBad] 45 0 9 none false 10 180 = none := by
  have h1 : processItem itemBad 45 0 9 false 10 180 = ItemResult.fatal := rfl
  simp [processForecastData, processAll, processItem_itemA, h1]

/-- Claim C8, witness: an absent timestamp is skipped (the singleton batch
behaves like the empty batch), while an unparsable one is fatal. -/
theorem C8_witness :
    processAll [itemAbsent] 45 0 9 false 10 180 =
      processAll ([] : List RawItem) 45 0 9 false 10 180 ∧
    processAll [itemBad] 45 0 9 false 10 180 = none :=
  ⟨(C8_absent_skipped_unparsable_fatal itemAbsent [] 45 0 9 false 10 180).1 rfl,
   (C8_absent_skipped_unparsable_fatal itemBad [] 45 0 9 false 10 180).2 rfl⟩

/-- Claim C9, confirmed.  For every produced record, `gti_valid` is true
iff the upstream sample carried a present, non-null `gti` or solar-car
mode is on (in which case the GTI is recomputed and marked valid). -/
theorem C9_gti_valid_iff (item : RawItem) (lat lon : ℝ) (tz : Int) (sc : Bool)
    (scTilt scDir : ℝ) (f : SolarForecast)
    (hok : processItem item lat lon tz sc scTilt scDir = .ok f) :
    (f.gti_valid = true ↔ (∃ v : ℝ, item.gti = some (some v)) ∨ sc = true) := by
  rcases hpe : item.period_end with _ | pe
  · rw [processItem, hpe] at hok
    exact absurd hok (by simp)
  rcases pe with _ | t
  · rw [processItem, hpe] at hok
    exact absurd hok (by simp)
  rw [processItem, hpe] at hok
  simp only at hok
  cases hsp : sunPosition (localTime t tz) lat lon with
  | none =>
    rw [hsp] at hok
    exact absurd hok (by simp)
  | some sp =>
    rw [hsp] at hok
    simp only [ItemResult.ok.injEq] at hok
    subst hok
    cases sc with
    | true => simp
    | false =>
      rcases hgti : item.gti with _ | gv
      · simp [hgti]
      · rcases gv with _ | v
        · simp [hgti]
        · simp [hgti]

/-- Claim C9, witness: `itemA` carries upstream gti 500 and is processed
with solar-car mode off; the produced record has `gti_valid = true`. -/
theorem C9_witness :
    processItem itemA 45 0 9 false 10 180 = .ok fcA ∧
    (fcA.gti_valid = true ↔ (∃ v : ℝ, itemA.gti = some (some v)) ∨ false = true) :=
  ⟨processItem_itemA, C9_gti_valid_iff itemA 45 0 9 false 10 180 fcA processItem_itemA⟩

end SolcastMonitor
